import Mathlib

/-!
Verification of the `apivercelpensum` course-catalogue API.

The repository is an Express application over Vercel KV with two variants of
the `GET /asignaturas` enumeration: an index-based one (`src/api/index.js`,
which maintains a Redis set `index:asignaturas` of live record keys) and an
older scan-based one (the unnamed source file, which scans the keyspace for
keys matching the `asignatura:` prefix).

We embed the request handlers as pure functions over an explicit database
state: the record store is an association list from string keys to course
records, and the index set is a list of keys without meaningful order.
JavaScript runtime behaviour that the handlers depend on (truthiness of the
validation check, `parseInt` coercion including its NaN result, string
coercion of interpolated values) is modelled explicitly.
-/

namespace Pensum

/-- A JavaScript number as it occurs in this API: an exact integer or the
NaN sentinel produced by a failed `parseInt`. -/
inductive JsNum where
  | int (i : Int)
  | nan
  deriving DecidableEq, Repr

/-- A scalar JSON value, as it can occur inside an array such as
`requisitos` (the API only ever stores arrays of course-code strings). -/
inductive JsPrim where
  | pNull
  | pUndefined
  | pBool (b : Bool)
  | pNum (n : JsNum)
  | pStr (s : String)
  deriving DecidableEq, Repr

/-- A JSON/JavaScript value as it can appear in a request body field:
`undefined` stands for a field absent from the destructuring. Arrays are
modelled with scalar elements, which covers every array this API handles. -/
inductive JsValue where
  | vNull
  | vUndefined
  | vBool (b : Bool)
  | vNum (n : JsNum)
  | vStr (s : String)
  | vArr (elems : List JsPrim)
  deriving DecidableEq, Repr

/-- JavaScript truthiness, as used by the `if (!carrera || ...)` check. -/
def truthy : JsValue → Bool
  | .vNull => false
  | .vUndefined => false
  | .vBool b => b
  | .vNum (.int i) => decide (i ≠ 0)
  | .vNum .nan => false
  | .vStr s => decide (s ≠ "")
  | .vArr _ => true

/-- One array element rendered for `Array.prototype.join`: `null` and
`undefined` elements become the empty string. -/
def jsPrimStr : JsPrim → String
  | .pNull => ""
  | .pUndefined => ""
  | .pBool b => if b then "true" else "false"
  | .pNum (.int i) => toString i
  | .pNum .nan => "NaN"
  | .pStr s => s

/-- JavaScript `String(v)` coercion, used by template-literal interpolation
and by `parseInt` before parsing; arrays stringify as their
comma-joined elements. -/
def jsToString : JsValue → String
  | .vNull => "null"
  | .vUndefined => "undefined"
  | .vBool b => if b then "true" else "false"
  | .vNum (.int i) => toString i
  | .vNum .nan => "NaN"
  | .vStr s => s
  | .vArr elems => String.intercalate (",") (elems.map jsPrimStr)

/-- Hexadecimal digit test, for `parseInt`'s `0x` handling. -/
def isHexDig (c : Char) : Bool :=
  c.isDigit || (decide ('a' ≤ c) && decide (c ≤ 'f')) || (decide ('A' ≤ c) && decide (c ≤ 'F'))

/-- Value of a hexadecimal digit. -/
def hexDigVal (c : Char) : Nat :=
  if c.isDigit then c.toNat - 48
  else if decide ('a' ≤ c) && decide (c ≤ 'f') then c.toNat - 87
  else c.toNat - 55

/-- Accumulate a list of decimal digits into a natural number. -/
def decDigitsVal (cs : List Char) : Nat :=
  cs.foldl (fun a c => a * 10 + (c.toNat - 48)) 0

/-- Accumulate a list of hexadecimal digits into a natural number. -/
def hexDigitsVal (cs : List Char) : Nat :=
  cs.foldl (fun a c => a * 16 + hexDigVal c) 0

/-- JavaScript whitespace accepted at the front of a `parseInt` argument. -/
def isJsSpace (c : Char) : Bool :=
  c = ' ' || c = '\t' || c = '\n' || c = '\r'

/-- `parseInt(s)` with the default radix: skip leading whitespace, read an
optional sign, then either a `0x`/`0X` hexadecimal literal or the longest
prefix of decimal digits; no digits yields NaN. -/
def parseIntStr (s : String) : JsNum :=
  let cs := s.data.dropWhile isJsSpace
  let signed : Int × List Char :=
    match cs with
    | '-' :: rest => (-1, rest)
    | '+' :: rest => (1, rest)
    | _ => (1, cs)
  let sign := signed.1
  let body := signed.2
  match body with
  | '0' :: x :: rest =>
    if x = 'x' || x = 'X' then
      let hx := rest.takeWhile isHexDig
      if hx.isEmpty then .nan else .int (sign * (hexDigitsVal hx : Int))
    else
      .int (sign * (decDigitsVal (body.takeWhile Char.isDigit) : Int))
  | _ =>
    let ds := body.takeWhile Char.isDigit
    if ds.isEmpty then .nan else .int (sign * (decDigitsVal ds : Int))

/-- JavaScript `parseInt(v)`: the argument is coerced to a string first. -/
def jsParseInt (v : JsValue) : JsNum :=
  parseIntStr (jsToString v)

/-- A stored course record, mirroring the object literal built by
`POST /asignaturas`. After creation `sem` and `uc` hold `vNum` values, but
`PUT` can overwrite any field with a raw body value, so every field has
type `JsValue`. -/
structure Asignatura where
  id : JsValue
  carrera : JsValue
  sem : JsValue
  cod : JsValue
  asig : JsValue
  uc : JsValue
  requisitos : JsValue
  deriving DecidableEq, Repr

/-- The fixed key namespace for course records (`ASIGNATURA_PREFIX`). -/
def asignaturaPre : String := "asignatura:"

/-- Record-store lookup (`kv.get` / `kv.exists`): first binding wins. -/
def kvLookup : List (String × Asignatura) → String → Option Asignatura
  | [], _ => none
  | (k', v) :: rest, k => if k' = k then some v else kvLookup rest k

/-- Remove every binding of a key from the record store. -/
def kvRemove : List (String × Asignatura) → String → List (String × Asignatura)
  | [], _ => []
  | (k', v) :: rest, k =>
    if k' = k then kvRemove rest k else (k', v) :: kvRemove rest k

/-- Record-store write (`kv.set`): upsert, leaving a single binding. -/
def kvSet (l : List (String × Asignatura)) (k : String) (v : Asignatura) :
    List (String × Asignatura) :=
  (k, v) :: kvRemove l k

/-- Record-store delete (`kv.del`): removes the key and reports how many
keys were removed (0 or 1). -/
def kvDel (l : List (String × Asignatura)) (k : String) :
    List (String × Asignatura) × Nat :=
  (kvRemove l k, if (kvLookup l k).isSome then 1 else 0)

/-- Index-set add (`sadd`): idempotent insertion. -/
def saddL (l : List String) (k : String) : List String :=
  if k ∈ l then l else l ++ [k]

/-- Index-set remove (`srem`): idempotent removal. -/
def sremL : List String → String → List String
  | [], _ => []
  | x :: rest, k => if x = k then sremL rest k else x :: sremL rest k

/-- The shared database state: the record store and the index set
(`index:asignaturas`). -/
structure DB where
  records : List (String × Asignatura)
  index : List String
  deriving DecidableEq, Repr

/-- The state before any request: both stores empty. -/
def emptyDB : DB := { records := [], index := [] }

/-- The body of a `POST /asignaturas` request after destructuring;
a field missing from the JSON is `vUndefined`. -/
structure CreateBody where
  carrera : JsValue
  sem : JsValue
  cod : JsValue
  asig : JsValue
  uc : JsValue
  requisitos : JsValue
  deriving DecidableEq, Repr

/-- The truthiness validation of the five required fields. -/
def validBody (b : CreateBody) : Bool :=
  truthy b.carrera && truthy b.sem && truthy b.cod && truthy b.asig && truthy b.uc

/-- The object literal stored by `POST /asignaturas`: a fresh id, the raw
`carrera`/`cod`/`asig` values, `parseInt` of `sem` and `uc`, and
`requisitos || []`. -/
def newRec (b : CreateBody) (freshId : String) : Asignatura :=
  { id := .vStr freshId
    carrera := b.carrera
    sem := .vNum (jsParseInt b.sem)
    cod := b.cod
    asig := b.asig
    uc := .vNum (jsParseInt b.uc)
    requisitos := if truthy b.requisitos then b.requisitos else .vArr [] }

/-- Outcome of `POST /asignaturas`: 400, 409, or 201 with the record. -/
inductive CreateResult where
  | badRequest
  | conflict
  | created (a : Asignatura)
  deriving DecidableEq, Repr

/-- `POST /asignaturas`: validate, derive the key, check existence, then
write the record and add the key to the index in one multi. -/
def createAsignatura (db : DB) (b : CreateBody) (freshId : String) :
    CreateResult × DB :=
  if !(validBody b) then (.badRequest, db)
  else
    let key := asignaturaPre ++ jsToString b.cod
    if (kvLookup db.records key).isSome then (.conflict, db)
    else
      let a := newRec b freshId
      (.created a, { records := kvSet db.records key a, index := saddL db.index key })

/-- `GET /asignaturas/:cod`: a direct record-store lookup; `none` is the
404 branch. -/
def getAsignatura (db : DB) (cod : String) : Option Asignatura :=
  kvLookup db.records (asignaturaPre ++ cod)

/-- The body of a `PUT /asignaturas/:cod` request: any subset of the
record's fields may be present. -/
structure UpdateBody where
  id : Option JsValue
  carrera : Option JsValue
  sem : Option JsValue
  cod : Option JsValue
  asig : Option JsValue
  uc : Option JsValue
  requisitos : Option JsValue
  deriving DecidableEq, Repr

/-- The spread merge `{ ...existingAsignatura, ...req.body }`: each body
field, when present, overwrites the stored field. -/
def mergeA (a : Asignatura) (b : UpdateBody) : Asignatura :=
  { id := b.id.getD a.id
    carrera := b.carrera.getD a.carrera
    sem := b.sem.getD a.sem
    cod := b.cod.getD a.cod
    asig := b.asig.getD a.asig
    uc := b.uc.getD a.uc
    requisitos := b.requisitos.getD a.requisitos }

/-- Outcome of `PUT /asignaturas/:cod`: 404 or 200 with the merged record. -/
inductive UpdateResult where
  | notFound
  | ok (a : Asignatura)
  deriving DecidableEq, Repr

/-- `PUT /asignaturas/:cod`: get, 404 if absent, else store and return the
spread merge. The index is never touched. -/
def updateAsignatura (db : DB) (cod : String) (b : UpdateBody) :
    UpdateResult × DB :=
  let key := asignaturaPre ++ cod
  match kvLookup db.records key with
  | none => (.notFound, db)
  | some a =>
    let merged := mergeA a b
    (.ok merged, { db with records := kvSet db.records key merged })

/-- Outcome of `DELETE /asignaturas/:cod`: 404 or 204. -/
inductive DeleteResult where
  | notFound
  | noContent
  deriving DecidableEq, Repr

/-- `DELETE /asignaturas/:cod`: the multi always executes both `del` and
`srem`; only afterwards is the `del` count inspected for the 404. -/
def deleteAsignatura (db : DB) (cod : String) : DeleteResult × DB :=
  let key := asignaturaPre ++ cod
  let delPair := kvDel db.records key
  let db' : DB := { records := delPair.1, index := sremL db.index key }
  if delPair.2 = 0 then (.notFound, db') else (.noContent, db')

/-- `GET /asignaturas` (index-based): `smembers` then, when non-empty, one
`mget` over the member keys. The second component counts the record-store
keys read, to express that the empty case performs no record-store read. -/
def listAsignaturas (db : DB) : List (Option Asignatura) × Nat :=
  let keys := db.index
  if keys.isEmpty then ([], 0)
  else (keys.map (kvLookup db.records), keys.length)

/-- Whether `p` is a leading substring of `s`, for matching the scan glob. -/
def strHasPre (p s : String) : Bool :=
  p.data.isPrefixOf s.data

/-- The keys produced by `scanIterator` on the `asignatura:` glob: the
record-store keys matching the prefix. -/
def scanKeysL (db : DB) : List String :=
  (db.records.map Prod.fst).filter (fun k => strHasPre asignaturaPre k)

/-- `GET /asignaturas` (scan-based variant from the older source file):
scan the keyspace for the prefix, then `mget` when non-empty. -/
def scanListAsignaturas (db : DB) : List (Option Asignatura) :=
  let keys := scanKeysL db
  if keys.isEmpty then [] else keys.map (kvLookup db.records)

/-- One serial API mutation, for reasoning about operation sequences. -/
inductive Op where
  | create (b : CreateBody) (freshId : String)
  | update (cod : String) (b : UpdateBody)
  | delete (cod : String)
  deriving Repr

/-- The state after one mutation (the HTTP result is discarded). -/
def applyOp (db : DB) : Op → DB
  | .create b freshId => (createAsignatura db b freshId).2
  | .update cod b => (updateAsignatura db cod b).2
  | .delete cod => (deleteAsignatura db cod).2

/-- The state after a serial sequence of mutations. -/
def runOps (db : DB) : List Op → DB
  | [] => db
  | op :: ops => runOps (applyOp db op) ops

/-- The index-consistency invariant: a key is an index member exactly when
a record exists at it. -/
def inv (db : DB) : Prop :=
  ∀ k : String, k ∈ db.index ↔ (kvLookup db.records k).isSome

/-! ## Field-wise view of a record, for stating the merge law -/

/-- The seven fields of a stored record. -/
inductive AsigField where
  | fId
  | fCarrera
  | fSem
  | fCod
  | fAsig
  | fUc
  | fRequisitos
  deriving DecidableEq, Repr

/-- Project one field out of a record. -/
def getF (a : Asignatura) : AsigField → JsValue
  | .fId => a.id
  | .fCarrera => a.carrera
  | .fSem => a.sem
  | .fCod => a.cod
  | .fAsig => a.asig
  | .fUc => a.uc
  | .fRequisitos => a.requisitos

/-- The update body `{}` with no fields. -/
def emptyBody : UpdateBody :=
  { id := none, carrera := none, sem := none, cod := none, asig := none,
    uc := none, requisitos := none }

/-- The update body containing exactly the one field `f` with value `v`. -/
def singleBody : AsigField → JsValue → UpdateBody
  | .fId, v => { emptyBody with id := some v }
  | .fCarrera, v => { emptyBody with carrera := some v }
  | .fSem, v => { emptyBody with sem := some v }
  | .fCod, v => { emptyBody with cod := some v }
  | .fAsig, v => { emptyBody with asig := some v }
  | .fUc, v => { emptyBody with uc := some v }
  | .fRequisitos, v => { emptyBody with requisitos := some v }

/-! ## Concrete fixtures used by witnesses and counterexamples -/

/-- A well-formed create request body. -/
def wBody : CreateBody :=
  { carrera := .vStr "CS"
    sem := .vNum (.int 3)
    cod := .vStr "CS301"
    asig := .vStr "Algoritmos"
    uc := .vNum (.int 4)
    requisitos := .vUndefined }

/-- The record that creating `wBody` with id `n1` stores. -/
def wRec : Asignatura := newRec wBody "n1"

/-- The state after creating `wBody` in the empty database. -/
def wDB : DB := (createAsignatura emptyDB wBody "n1").2

/-- An update body that changes only `uc`. -/
def ucBody : UpdateBody :=
  { id := none, carrera := none, sem := none, cod := none, asig := none,
    uc := some (.vNum (.int 5)), requisitos := none }

/-- An update body that tries to overwrite the `id` field. -/
def idBody : UpdateBody :=
  { id := some (.vStr "evil"), carrera := none, sem := none, cod := none,
    asig := none, uc := none, requisitos := none }

/-- An inconsistent state: the key is an index member but has no record. -/
def c3cexDB : DB := { records := [], index := [asignaturaPre ++ "X"] }

/-- A create body whose `sem` and `uc` are truthy but not numeric. -/
def c6Body : CreateBody :=
  { carrera := .vStr "CS"
    sem := .vStr "abc"
    cod := .vStr "CS999"
    asig := .vStr "Extra"
    uc := .vStr "xyz"
    requisitos := .vUndefined }

/-- A state whose index holds one live key and one dangling key. -/
def c8DB : DB :=
  { records := [(asignaturaPre ++ "CS301", wRec)]
    index := [asignaturaPre ++ "CS301", asignaturaPre ++ "GHOST"] }

/-! ## Lemmas about the store primitives -/

theorem kvLookup_kvRemove (l : List (String × Asignatura)) (k k' : String) :
    kvLookup (kvRemove l k) k' = if k' = k then none else kvLookup l k' := by
  induction l with
  | nil => simp [kvRemove, kvLookup]
  | cons p rest ih =>
    obtain ⟨k1, v⟩ := p
    by_cases h1 : k1 = k <;> by_cases h2 : k1 = k' <;>
      simp_all [kvRemove, kvLookup]

theorem kvLookup_kvSet (l : List (String × Asignatura)) (k : String)
    (v : Asignatura) (k' : String) :
    kvLookup (kvSet l k v) k' = if k' = k then some v else kvLookup l k' := by
  by_cases h : k' = k
  · subst h
    simp [kvSet, kvLookup]
  · simp [kvSet, kvLookup, kvLookup_kvRemove, h, Ne.symm h]

theorem kvRemove_of_lookup_none (l : List (String × Asignatura)) (k : String)
    (h : kvLookup l k = none) : kvRemove l k = l := by
  induction l with
  | nil => simp [kvRemove]
  | cons p rest ih =>
    obtain ⟨k1, v⟩ := p
    by_cases h1 : k1 = k <;> simp_all [kvRemove, kvLookup]

theorem mem_saddL (l : List String) (k k' : String) :
    k' ∈ saddL l k ↔ k' ∈ l ∨ k' = k := by
  unfold saddL
  by_cases h : k ∈ l
  · simp only [if_pos h]
    constructor
    · exact Or.inl
    · rintro (h' | rfl)
      · exact h'
      · exact h
  · simp [if_neg h]

theorem mem_sremL (l : List String) (k k' : String) :
    k' ∈ sremL l k ↔ k' ∈ l ∧ k' ≠ k := by
  induction l with
  | nil => simp [sremL]
  | cons x rest ih =>
    unfold sremL
    by_cases h : x = k
    · subst h
      rw [if_pos rfl, ih, List.mem_cons]
      constructor
      · rintro ⟨hm, hne⟩
        exact ⟨Or.inr hm, hne⟩
      · rintro ⟨hmem, hne⟩
        rcases hmem with rfl | hm
        · exact absurd rfl hne
        · exact ⟨hm, hne⟩
    · rw [if_neg h, List.mem_cons, List.mem_cons, ih]
      constructor
      · rintro (rfl | ⟨hm, hne⟩)
        · exact ⟨Or.inl rfl, h⟩
        · exact ⟨Or.inr hm, hne⟩
      · rintro ⟨rfl | hm, hne⟩
        · exact Or.inl rfl
        · exact Or.inr ⟨hm, hne⟩

theorem sremL_of_not_mem (l : List String) (k : String) (h : k ∉ l) :
    sremL l k = l := by
  induction l with
  | nil => rfl
  | cons x rest ih =>
    rw [List.mem_cons] at h
    push_neg at h
    unfold sremL
    rw [if_neg (fun hx => h.1 hx.symm), ih h.2]

theorem kvLookup_isSome_iff_mem_keys (l : List (String × Asignatura)) (k : String) :
    (kvLookup l k).isSome ↔ k ∈ l.map Prod.fst := by
  induction l with
  | nil => simp [kvLookup]
  | cons p rest ih =>
    obtain ⟨k1, v⟩ := p
    unfold kvLookup
    by_cases h1 : k1 = k
    · subst h1
      simp
    · rw [if_neg h1, ih, List.map_cons, List.mem_cons]
      constructor
      · exact Or.inr
      · rintro (rfl | hm)
        · exact absurd rfl h1
        · exact hm

/-! ## Preservation of the index-consistency invariant -/

theorem inv_create (db : DB) (b : CreateBody) (fid : String) (h : inv db) :
    inv (createAsignatura db b fid).2 := by
  unfold createAsignatura
  dsimp only
  split
  · exact h
  · split
    · exact h
    · intro k
      rw [mem_saddL, kvLookup_kvSet]
      by_cases hk : k = asignaturaPre ++ jsToString b.cod
      · simp [hk]
      · simp [hk, h k]

theorem inv_update (db : DB) (cod : String) (b : UpdateBody) (h : inv db) :
    inv (updateAsignatura db cod b).2 := by
  unfold updateAsignatura
  dsimp only
  split
  · exact h
  · rename_i a ha
    intro k
    dsimp only
    rw [kvLookup_kvSet]
    by_cases hk : k = asignaturaPre ++ cod
    · rw [if_pos hk]
      constructor
      · intro _
        rfl
      · intro _
        rw [hk]
        exact (h (asignaturaPre ++ cod)).mpr (by rw [ha]; rfl)
    · rw [if_neg hk]
      exact h k

theorem inv_delete (db : DB) (cod : String) (h : inv db) :
    inv (deleteAsignatura db cod).2 := by
  unfold deleteAsignatura
  dsimp only [kvDel]
  split
  · rw [if_neg one_ne_zero]
    intro k
    dsimp only
    rw [mem_sremL, kvLookup_kvRemove]
    by_cases hk : k = asignaturaPre ++ cod
    · simp [hk]
    · simp [hk, h k]
  · rw [if_pos rfl]
    intro k
    dsimp only
    rw [mem_sremL, kvLookup_kvRemove]
    by_cases hk : k = asignaturaPre ++ cod
    · simp [hk]
    · simp [hk, h k]

theorem inv_applyOp (db : DB) (op : Op) (h : inv db) : inv (applyOp db op) := by
  cases op with
  | create b fid => exact inv_create db b fid h
  | update cod b => exact inv_update db cod b h
  | delete cod => exact inv_delete db cod h

theorem inv_runOps (db : DB) (ops : List Op) (h : inv db) : inv (runOps db ops) := by
  induction ops generalizing db with
  | nil => exact h
  | cons op ops ih => exact ih (applyOp db op) (inv_applyOp db op h)

theorem inv_emptyDB : inv emptyDB := by
  intro k
  simp [emptyDB, kvLookup]

/-! ## The claims -/

/-- C1: starting from empty stores, after every finite serial sequence of
Create, Update and Delete operations, a key is a member of the index set
exactly when a record exists at it in the record store. -/
theorem c1_index_consistency (ops : List Op) : inv (runOps emptyDB ops) :=
  inv_runOps emptyDB ops inv_emptyDB

/-- C2: when the request passes field validation and the storage key derived
from its `cod` already holds a record, Create answers 409 Conflict and
leaves the whole state — both stores, hence the first record — unchanged. -/
theorem c2_create_conflict (db : DB) (b : CreateBody) (fid : String)
    (hv : validBody b = true)
    (he : (kvLookup db.records (asignaturaPre ++ jsToString b.cod)).isSome = true) :
    createAsignatura db b fid = (.conflict, db) := by
  simp [createAsignatura, hv, he]

/-- Witness for C2: a duplicate create of `wBody` against `wDB` hits the
conflict branch and changes nothing. -/
theorem c2_witness :
    validBody wBody = true ∧
    (kvLookup wDB.records (asignaturaPre ++ jsToString wBody.cod)).isSome = true ∧
    createAsignatura wDB wBody "n2" = (.conflict, wDB) :=
  ⟨by decide, by decide, c2_create_conflict wDB wBody "n2" (by decide) (by decide)⟩

/-- C3 counterexample: in a state where the key is an index member but has
no record, Delete answers 404 yet the index set is changed — the `srem` in
the multi already removed the member before the zero delete count was
inspected, so the claim's "Index Set is the same after the failed Delete"
fails. -/
theorem c3_counterexample :
    (deleteAsignatura c3cexDB "X").1 = .notFound ∧
    (deleteAsignatura c3cexDB "X").2.index ≠ c3cexDB.index := by
  decide

/-- C3 (amended): when the derived key holds no record, Delete answers 404
and leaves the record store unchanged, and the index set becomes `srem` of
the key — which is the unchanged index set whenever the key was not
(erroneously) a member. -/
theorem c3_delete_missing_amended (db : DB) (cod : String)
    (h : kvLookup db.records (asignaturaPre ++ cod) = none) :
    (deleteAsignatura db cod).1 = .notFound ∧
    (deleteAsignatura db cod).2.records = db.records ∧
    (deleteAsignatura db cod).2.index = sremL db.index (asignaturaPre ++ cod) ∧
    (asignaturaPre ++ cod ∉ db.index → (deleteAsignatura db cod).2 = db) := by
  have hrec : kvRemove db.records (asignaturaPre ++ cod) = db.records :=
    kvRemove_of_lookup_none db.records (asignaturaPre ++ cod) h
  unfold deleteAsignatura
  dsimp only [kvDel]
  rw [h]
  have hzero : (if (none : Option Asignatura).isSome = true then 1 else 0) = 0 := by
    decide
  rw [hzero, if_pos rfl]
  refine ⟨rfl, hrec, rfl, fun hmem => ?_⟩
  dsimp only
  rw [hrec, sremL_of_not_mem db.index (asignaturaPre ++ cod) hmem]

/-- Witness for C3 (amended): deleting from the empty state gives 404 with
nothing changed. -/
theorem c3_amended_witness :
    kvLookup emptyDB.records (asignaturaPre ++ "X") = none ∧
    (deleteAsignatura emptyDB "X").1 = .notFound ∧
    (deleteAsignatura emptyDB "X").2 = emptyDB :=
  ⟨rfl, (c3_delete_missing_amended emptyDB "X" rfl).1,
    (c3_delete_missing_amended emptyDB "X" rfl).2.2.2 (by decide)⟩

/-- C10: a required create field that is present but falsy — `sem = 0`,
`uc = 0`, an empty-string `asig`, and so on — fails validation exactly like
a missing field: 400 Bad Request and no write to either store. -/
theorem c10_falsy_validation (db : DB) (b : CreateBody) (fid : String)
    (h : truthy b.carrera = false ∨ truthy b.sem = false ∨ truthy b.cod = false ∨
         truthy b.asig = false ∨ truthy b.uc = false) :
    createAsignatura db b fid = (.badRequest, db) := by
  have hv : validBody b = false := by
    unfold validBody
    rcases h with h | h | h | h | h <;> simp [h]
  simp [createAsignatura, hv]

/-- C4: updating an existing record with a body containing exactly one
field stores and returns a record in which that field holds the new value,
every other field keeps its pre-update value, and the index set is
untouched. -/
theorem c4_update_merge_law (db : DB) (cod : String) (a : Asignatura)
    (f : AsigField) (v : JsValue)
    (h : kvLookup db.records (asignaturaPre ++ cod) = some a) :
    (updateAsignatura db cod (singleBody f v)).1 = .ok (mergeA a (singleBody f v)) ∧
    getF (mergeA a (singleBody f v)) f = v ∧
    (∀ g : AsigField, g ≠ f → getF (mergeA a (singleBody f v)) g = getF a g) ∧
    kvLookup (updateAsignatura db cod (singleBody f v)).2.records (asignaturaPre ++ cod)
      = some (mergeA a (singleBody f v)) ∧
    (updateAsignatura db cod (singleBody f v)).2.index = db.index := by
  refine ⟨?_, ?_, ?_, ?_, ?_⟩
  · simp [updateAsignatura, h]
  · cases f <;> simp [mergeA, singleBody, emptyBody, getF]
  · intro g hg
    cases f <;> cases g <;> simp_all [mergeA, singleBody, emptyBody, getF]
  · simp [updateAsignatura, h, kvLookup_kvSet]
  · simp [updateAsignatura, h]

/-- Witness for C4: updating `uc` on the created record returns the merge
and changes no other field. -/
theorem c4_witness :
    kvLookup wDB.records (asignaturaPre ++ "CS301") = some wRec ∧
    (updateAsignatura wDB "CS301" (singleBody .fUc (.vNum (.int 5)))).1
      = .ok (mergeA wRec (singleBody .fUc (.vNum (.int 5)))) ∧
    (updateAsignatura wDB "CS301" (singleBody .fUc (.vNum (.int 5)))).2.index
      = wDB.index :=
  ⟨by decide,
    (c4_update_merge_law wDB "CS301" wRec .fUc (.vNum (.int 5)) (by decide)).1,
    (c4_update_merge_law wDB "CS301" wRec .fUc (.vNum (.int 5)) (by decide)).2.2.2.2⟩

/-- C5 counterexample: an update body carrying an `id` field overwrites the
stored id — the spread merge copies every body field, so the id is not
immutable. Before the update the stored id is `n1`; after it, `evil`. -/
theorem c5_counterexample :
    (getAsignatura wDB "CS301").map Asignatura.id = some (.vStr "n1") ∧
    (getAsignatura (updateAsignatura wDB "CS301" idBody).2 "CS301").map Asignatura.id
      = some (.vStr "evil") := by
  decide

/-- C5 (amended): the id is preserved by every Update whose body does not
contain an `id` field; a body that does contain one overwrites the stored
id with the body's value. -/
theorem c5_id_immutable_amended (db : DB) (cod : String) (a : Asignatura)
    (b : UpdateBody) (h : kvLookup db.records (asignaturaPre ++ cod) = some a)
    (hb : b.id = none) :
    (getAsignatura (updateAsignatura db cod b).2 cod).map Asignatura.id = some a.id := by
  simp [getAsignatura, updateAsignatura, h, kvLookup_kvSet, mergeA, hb]

/-- Witness for C5 (amended): an `uc`-only update leaves the stored id at
its creation value. -/
theorem c5_witness :
    kvLookup wDB.records (asignaturaPre ++ "CS301") = some wRec ∧
    ucBody.id = none ∧
    (getAsignatura (updateAsignatura wDB "CS301" ucBody).2 "CS301").map Asignatura.id
      = some wRec.id :=
  ⟨by decide, by decide,
    c5_id_immutable_amended wDB "CS301" wRec ucBody (by decide) (by decide)⟩

/-- C6 counterexample: with truthy but non-numeric `sem` and `uc` strings
the claim demands a ValidationError and no write, but Create succeeds, the
record is written, and its `sem` is the NaN sentinel. -/
theorem c6_counterexample :
    (createAsignatura emptyDB c6Body "n9").1 = .created (newRec c6Body "n9") ∧
    (newRec c6Body "n9").sem = .vNum .nan ∧
    (newRec c6Body "n9").uc = .vNum .nan ∧
    (kvLookup (createAsignatura emptyDB c6Body "n9").2.records
      (asignaturaPre ++ "CS999")).isSome = true := by
  decide

/-- C6 (amended): Create never rejects a truthy non-numeric `sem` or `uc`;
it stores `parseInt` of each input, which is an integer exactly when the
input is numeric-coercible and the NaN sentinel otherwise. -/
theorem c6_numeric_coercion_amended (db : DB) (b : CreateBody) (fid : String)
    (hv : validBody b = true)
    (he : kvLookup db.records (asignaturaPre ++ jsToString b.cod) = none) :
    (createAsignatura db b fid).1 = .created (newRec b fid) ∧
    (newRec b fid).sem = .vNum (jsParseInt b.sem) ∧
    (newRec b fid).uc = .vNum (jsParseInt b.uc) := by
  refine ⟨?_, rfl, rfl⟩
  simp [createAsignatura, hv, he]

/-- Witness for C6 (amended): the non-numeric body is accepted and stores
`parseInt` of its inputs. -/
theorem c6_amended_witness :
    validBody c6Body = true ∧
    (createAsignatura emptyDB c6Body "n9").1 = .created (newRec c6Body "n9") :=
  ⟨by decide,
    (c6_numeric_coercion_amended emptyDB c6Body "n9" (by decide) (by decide)).1⟩

/-- C7: a valid Create with a fresh code followed immediately by GetOne of
that code returns exactly the record Create returned — same id, same value
in every field. -/
theorem c7_create_get_roundtrip (db : DB) (b : CreateBody) (fid : String)
    (hv : validBody b = true)
    (he : kvLookup db.records (asignaturaPre ++ jsToString b.cod) = none) :
    (createAsignatura db b fid).1 = .created (newRec b fid) ∧
    getAsignatura (createAsignatura db b fid).2 (jsToString b.cod)
      = some (newRec b fid) := by
  constructor
  · simp [createAsignatura, hv, he]
  · simp [createAsignatura, getAsignatura, hv, he, kvLookup_kvSet]

/-- Witness for C7: creating `wBody` in the empty state and reading it back
returns the created record. -/
theorem c7_witness :
    validBody wBody = true ∧
    getAsignatura (createAsignatura emptyDB wBody "n1").2 (jsToString wBody.cod)
      = some (newRec wBody "n1") :=
  ⟨by decide,
    (c7_create_get_roundtrip emptyDB wBody "n1" (by decide) (by decide)).2⟩

/-- C8: when the index set is empty, ListAll returns the empty sequence and
performs no record-store read; otherwise it returns one entry per index
member in 1:1 positional correspondence, where a member key without a
record surfaces as a `none` placeholder rather than being dropped. -/
theorem c8_list_all (db : DB) :
    (db.index = [] → listAsignaturas db = ([], 0)) ∧
    (db.index ≠ [] →
      (listAsignaturas db).1.length = db.index.length ∧
      ∀ i : Nat, (listAsignaturas db).1.get? i
        = (db.index.get? i).map (kvLookup db.records)) := by
  constructor
  · intro h
    simp [listAsignaturas, h]
  · intro h
    have hne : db.index.isEmpty = false := by
      cases hidx : db.index with
      | nil => exact absurd hidx h
      | cons x xs => rfl
    refine ⟨?_, ?_⟩
    · simp [listAsignaturas, hne]
    · intro i
      simp [listAsignaturas, hne, List.get?_eq_getElem?, List.getElem?_map]

/-- Witness for C8: a state with one live and one dangling index member
yields two entries, the dangling one as `none`. -/
theorem c8_witness :
    c8DB.index ≠ [] ∧
    (listAsignaturas c8DB).1.length = c8DB.index.length ∧
    (listAsignaturas c8DB).1.get? 1 = some none :=
  ⟨by decide, ((c8_list_all c8DB).2 (by decide)).1, by decide⟩

/-- C9: in every state that satisfies the index-consistency invariant,
whose stores hold no duplicate keys, and in which every live record key
matches the `asignatura:` prefix (so the prefix-matching keys are exactly
the live keys), the index-based enumeration and the scan-based enumeration
of the older source file return the same records up to ordering. -/
theorem c9_scan_refinement (db : DB)
    (hndI : db.index.Nodup)
    (hndR : (db.records.map Prod.fst).Nodup)
    (hinv : inv db)
    (hpre : ∀ k : String, (kvLookup db.records k).isSome = true →
      strHasPre asignaturaPre k = true) :
    List.Perm (listAsignaturas db).1 (scanListAsignaturas db) := by
  have hkeys : List.Perm db.index (scanKeysL db) := by
    unfold scanKeysL
    rw [List.perm_ext_iff_of_nodup hndI (List.Nodup.filter _ hndR)]
    intro k
    rw [hinv k]
    rw [List.mem_filter, ← kvLookup_isSome_iff_mem_keys]
    constructor
    · intro hs
      exact ⟨hs, hpre k hs⟩
    · rintro ⟨hs, _⟩
      exact hs
  by_cases hI : db.index.isEmpty = true
  · have hIdx : db.index = [] := List.isEmpty_iff.mp hI
    have hScan : scanKeysL db = [] := List.Perm.eq_nil (hIdx ▸ hkeys).symm
    simp [listAsignaturas, scanListAsignaturas, hIdx, hScan]
  · have hScan : ¬((scanKeysL db).isEmpty = true) := by
      intro hs
      exact hI (List.isEmpty_iff.mpr
        (List.Perm.eq_nil ((List.isEmpty_iff.mp hs) ▸ hkeys)))
    unfold listAsignaturas scanListAsignaturas
    dsimp only
    rw [if_neg hI, if_neg hScan]
    exact List.Perm.map (kvLookup db.records) hkeys

/-- Witness for C9: the two enumerations agree on the one-record state. -/
theorem c9_witness : List.Perm (listAsignaturas wDB).1 (scanListAsignaturas wDB) :=
  c9_scan_refinement wDB (by decide) (by decide)
    (inv_create emptyDB wBody "n1" inv_emptyDB)
    (fun k hk => by
      have hmem : k ∈ wDB.records.map Prod.fst :=
        (kvLookup_isSome_iff_mem_keys wDB.records k).mp hk
      have hlist : wDB.records.map Prod.fst = [asignaturaPre ++ "CS301"] := by decide
      rw [hlist, List.mem_singleton] at hmem
      rw [hmem]
      decide)

/-- Witness for C10: `sem = 0` is present but falsy, and the create is
rejected with no state change. -/
theorem c10_witness :
    truthy (JsValue.vNum (.int 0)) = false ∧
    createAsignatura emptyDB
      { carrera := .vStr "CS", sem := .vNum (.int 0), cod := .vStr "CS100",
        asig := .vStr "Intro", uc := .vNum (.int 2), requisitos := .vUndefined }
      "n3" = (.badRequest, emptyDB) :=
  ⟨by decide,
    c10_falsy_validation emptyDB
      { carrera := .vStr "CS", sem := .vNum (.int 0), cod := .vStr "CS100",
        asig := .vStr "Intro", uc := .vNum (.int 2), requisitos := .vUndefined }
      "n3" (Or.inr (Or.inl (by decide)))⟩

end Pensum
